import Mathlib

/-!
Verification of the promise library in `src/promise.js`, a Promises/A+
style implementation.  The library is shallowly embedded as a machine:

* a heap of promise records (`state` / `value` / `reason` / two callback
  queues), mirroring the fields set up in the constructor;
* a FIFO task queue modelling `nextTick` (`setTimeout(fn, 0)`): calling the
  capability `resolve`/`reject` only enqueues the settlement, which runs in
  a later turn;
* a heap of boolean flags modelling the closure-captured `called` guards of
  `resolvePromise`;
* an observation log used to record handler invocations.

User-supplied code (executors, `then` handlers, foreign thenables) is the
environment; it is modelled by small inductive behaviour types (`Handler`,
`ThenField`, `ThenAction`, `ExecAction`) whose interpreters perform the
calls exactly where the source performs them.  A foreign thenable's `then`
body is modelled as the sequence of calls it makes synchronously to the two
callbacks it receives (plus a possible raise).  The library code itself
(`resolvePromise`, the constructor's `resolve`/`reject`, `then`,
`Promise.deferred`) is translated line by line from the source.
-/

namespace PromiseSpec

/-- The three states `PENDING`, `RESOLVED`, `REJECTED` from the source. -/
inductive PState where
  | PENDING
  | RESOLVED
  | REJECTED
  deriving DecidableEq, Repr

mutual

/-- Runtime values.  `promiseRef` is a reference to a promise of this
library (JS object identity is promise-heap identity); `obj` is a foreign
object whose only relevant member is `then`; `func` is a JS function used
as a handler; `err`/`tyerr` are `Error`/`TypeError` objects carrying their
message. -/
inductive Value where
  | undef : Value
  | num : Int → Value
  | str : String → Value
  | err : String → Value
  | tyerr : String → Value
  | promiseRef : Nat → Value
  | obj : ThenField → Value
  | func : Handler → Value

/-- The `then` member of a foreign object: absent / not a function
(`notFn`), a getter that raises (`raise`), or a function whose body
synchronously performs the given calls on the two callbacks it receives
(`fnField`). -/
inductive ThenField where
  | notFn : ThenField
  | raise : Value → ThenField
  | fnField : List ThenAction → ThenField

/-- One synchronous action of a foreign thenable's `then` body: call the
first callback, call the second callback, or raise (which aborts the
body). -/
inductive ThenAction where
  | callRes : Value → ThenAction
  | callRej : Value → ThenAction
  | thro : Value → ThenAction

/-- Behaviour of a JS function passed around as a handler.  `ident` is the
default `v => v`; `rethrow` is the default `e => { throw e }`; `const` and
`thro` are user handlers returning / throwing a fixed value; `logv`
appends `(tag, argument)` to the observation log and returns its argument;
`getMsg` is `e => e.message`; `resCont`/`rejCont` are the two guarded
callbacks that `resolvePromise` passes to a thenable's `then`, carrying
the id of their shared `called` flag and the target promise. -/
inductive Handler where
  | ident : Handler
  | rethrow : Handler
  | const : Value → Handler
  | thro : Value → Handler
  | logv : Nat → Handler
  | getMsg : Handler
  | resCont : Nat → Nat → Handler
  | rejCont : Nat → Nat → Handler

end

/-- `typeof v === 'function'` (source `isFunction`). -/
def isFunction : Value → Bool
  | .func _ => true
  | _ => false

/-- `typeof v === 'object' && v !== null` (source `isObject`).
`Error`/`TypeError` instances and promises are objects. -/
def isObject : Value → Bool
  | .err _ => true
  | .tyerr _ => true
  | .promiseRef _ => true
  | .obj _ => true
  | _ => false

/-- A stored continuation: the closures pushed onto
`resolvedCallbacks`/`rejectedCallbacks` in `then`, and equally the bodies
scheduled by `then` via `nextTick` when the promise is already settled.
All of them run `handler(parent.value or parent.reason)` under
`try`/`catch` and feed the result to `resolvePromise` against `p2`. -/
structure Cb where
  parent : Nat
  p2 : Nat
  h : Handler
  useValue : Bool

/-- A queued `nextTick` task: the settlement bodies scheduled by the
constructor's `resolve`/`reject`, and the reaction bodies scheduled by
`then` on an already settled promise. -/
inductive Task where
  | settleResolve : Nat → Value → Task
  | settleReject : Nat → Value → Task
  | react : Cb → Task

/-- One promise record, as initialised by the constructor. -/
structure PromiseRec where
  state : PState := .PENDING
  value : Value := .undef
  reason : Value := .undef
  resolvedCallbacks : List Cb := []
  rejectedCallbacks : List Cb := []

/-- The whole machine: promise heap (a promise's id is its index), the
heap of `called` flags, the `nextTick` task queue, and the observation
log. -/
structure Machine where
  promises : List PromiseRec
  flags : List Bool
  queue : List Task
  log : List (Nat × Value)

def initMachine : Machine :=
  { promises := [], flags := [], queue := [], log := [] }

def getPromise (st : Machine) (pid : Nat) : PromiseRec :=
  st.promises.getD pid {}

def stateOf (st : Machine) (pid : Nat) : PState := (getPromise st pid).state

def valueOf (st : Machine) (pid : Nat) : Value := (getPromise st pid).value

def reasonOf (st : Machine) (pid : Nat) : Value := (getPromise st pid).reason

def setPromise (st : Machine) (pid : Nat) (rec : PromiseRec) : Machine :=
  { st with promises := st.promises.set pid rec }

/-- `nextTick(fn)`: append a task to the timer queue (FIFO). -/
def pushTask (t : Task) (st : Machine) : Machine :=
  { st with queue := st.queue ++ [t] }

/-- Allocate a fresh `called` flag, initialised to `false`; its id is the
current length of the flag heap. -/
def bumpFlag (st : Machine) : Machine :=
  { st with flags := st.flags ++ [false] }

def getFlag (st : Machine) (fid : Nat) : Bool := st.flags.getD fid false

def setFlag (st : Machine) (fid : Nat) : Machine :=
  { st with flags := st.flags.set fid true }

/-- Allocate a fresh promise record (constructor field initialisation);
its id is the current length of the promise heap. -/
def allocPromise (st : Machine) : Machine :=
  { st with promises := st.promises ++ [{}] }

/-- `promise2 === x`: object identity against a promise can only hold for
a reference to that same promise. -/
def isSamePromise (x : Value) (p2 : Nat) : Bool :=
  match x with
  | .promiseRef q => q = p2
  | _ => false

/-- `isFunction(onFulfilled) ? onFulfilled : default` (source lines
136-141): a non-function argument is replaced by the default handler. -/
def asHandler (v : Value) (dflt : Handler) : Handler :=
  match v with
  | .func h => h
  | _ => dflt

/-- The `TypeError('Error 循环引用')` rejected on self-resolution. -/
def cycleErr : Value := .tyerr "Error 循环引用"

/-- `then(onFulfilled, onRejected)` (source lines 135-201).  Defaults the
handlers, creates `promise2`, and depending on the current state either
schedules a reaction via `nextTick` or pushes the two continuations onto
the callback queues.  Returns the updated machine and `promise2`'s id. -/
def thenOp (st : Machine) (selfPid : Nat) (onF onR : Value) : Machine × Nat :=
  let f := asHandler onF .ident
  let r := asHandler onR .rethrow
  let p2 := st.promises.length
  let st := allocPromise st
  let self := getPromise st selfPid
  let st := if self.state = .RESOLVED then
      pushTask (.react ⟨selfPid, p2, f, true⟩) st
    else st
  let st := if self.state = .REJECTED then
      pushTask (.react ⟨selfPid, p2, r, false⟩) st
    else st
  let st := if self.state = .PENDING then
      setPromise st selfPid
        { self with
          resolvedCallbacks := self.resolvedCallbacks ++ [⟨selfPid, p2, f, true⟩]
          rejectedCallbacks := self.rejectedCallbacks ++ [⟨selfPid, p2, r, false⟩] }
    else st
  (st, p2)

mutual

/-- `resolvePromise(promise2, x, resolve, reject)` (source lines 29-71).
`resolve`/`reject` are always `promise2`'s constructor capabilities, i.e.
they enqueue the corresponding settlement task.  A fresh `called` flag is
allocated per invocation; the inline interpretation of a foreign
thenable's `then` body is `runActs`. -/
def resolvePromise (p2 : Nat) (x : Value) (st : Machine) : Machine :=
  if isSamePromise x p2 then
    pushTask (.settleReject p2 cycleErr) st
  else
    let fid := st.flags.length
    let st := bumpFlag st
    match x with
    | .obj (.raise e) =>
        -- reading `x.then` raised: catch clause, guarded by `called`
        if getFlag st fid then st
        else pushTask (.settleReject p2 e) (setFlag st fid)
    | .obj (.fnField acts) =>
        -- `then.call(x, y => ..., r => ...)` with the two guarded callbacks
        runActs p2 fid acts st
    | .obj .notFn => pushTask (.settleResolve p2 x) st
    | .promiseRef q =>
        -- `x.then` is the promise method: `then.call(x, cb1, cb2)`
        (thenOp st q (.func (.resCont fid p2)) (.func (.rejCont fid p2))).1
    | .func _ => pushTask (.settleResolve p2 x) st
    | .err _ => pushTask (.settleResolve p2 x) st
    | .tyerr _ => pushTask (.settleResolve p2 x) st
    | .undef => pushTask (.settleResolve p2 x) st
    | .num _ => pushTask (.settleResolve p2 x) st
    | .str _ => pushTask (.settleResolve p2 x) st

/-- Interpretation of a foreign thenable's `then` body: each `callRes y`
runs the first guarded callback (`if called return; called = true;
resolvePromise(promise2, y, ...)`), each `callRej r` the second, and a
raise aborts the body and lands in the `catch` clause. -/
def runActs (p2 fid : Nat) (acts : List ThenAction) (st : Machine) : Machine :=
  match acts with
  | [] => st
  | .callRes y :: rest =>
      if getFlag st fid then runActs p2 fid rest st
      else runActs p2 fid rest (resolvePromise p2 y (setFlag st fid))
  | .callRej r :: rest =>
      if getFlag st fid then runActs p2 fid rest st
      else runActs p2 fid rest (pushTask (.settleReject p2 r) (setFlag st fid))
  | .thro e :: _ =>
      if getFlag st fid then st
      else pushTask (.settleReject p2 e) (setFlag st fid)

end

/-- Run a handler on an argument: result is `.ok` (returned) or `.error`
(thrown), possibly with machine effects (logging, or — for the guarded
resolution callbacks — flag updates and recursive resolution). -/
def evalHandler (h : Handler) (arg : Value) (st : Machine) :
    Machine × Except Value Value :=
  match h with
  | .ident => (st, .ok arg)
  | .rethrow => (st, .error arg)
  | .const v => (st, .ok v)
  | .thro e => (st, .error e)
  | .logv tag => ({ st with log := st.log ++ [(tag, arg)] }, .ok arg)
  | .getMsg =>
      (st, .ok (match arg with
        | .err m => .str m
        | .tyerr m => .str m
        | _ => .undef))
  | .resCont fid p2 =>
      if getFlag st fid then (st, .ok .undef)
      else (resolvePromise p2 arg (setFlag st fid), .ok .undef)
  | .rejCont fid p2 =>
      if getFlag st fid then (st, .ok .undef)
      else (pushTask (.settleReject p2 arg) (setFlag st fid), .ok .undef)

/-- Run a stored continuation:
`try { const x = handler(arg); resolvePromise(promise2, x, resolve, reject) }
 catch (error) { reject(error) }` where `arg` is the parent's value or
reason read at run time. -/
def runCb (c : Cb) (st : Machine) : Machine :=
  let parent := getPromise st c.parent
  let arg := if c.useValue then parent.value else parent.reason
  match evalHandler c.h arg st with
  | (st, .ok x) => resolvePromise c.p2 x st
  | (st, .error e) => pushTask (.settleReject c.p2 e) st

/-- Run one queued task.  The settlement tasks are the `nextTick` bodies of
the constructor's `resolve`/`reject` (source lines 95-118): only a pending
promise transitions, and the matching callback queue is drained in order. -/
def runTask (t : Task) (st : Machine) : Machine :=
  match t with
  | .settleResolve pid v =>
      let p := getPromise st pid
      if p.state = .PENDING then
        let st := setPromise st pid { p with state := .RESOLVED, value := v }
        p.resolvedCallbacks.foldl (fun s c => runCb c s) st
      else st
  | .settleReject pid r =>
      let p := getPromise st pid
      if p.state = .PENDING then
        let st := setPromise st pid { p with state := .REJECTED, reason := r }
        p.rejectedCallbacks.foldl (fun s c => runCb c s) st
      else st
  | .react c => runCb c st

/-- One turn of the event loop: pop and run the front task. -/
def step (st : Machine) : Machine :=
  match st.queue with
  | [] => st
  | t :: rest => runTask t { st with queue := rest }

/-- Run `n` turns of the event loop. -/
def run : Nat → Machine → Machine
  | 0, st => st
  | n + 1, st => run n (step st)

/-- Calling the constructor-captured `resolve` capability: it only
schedules the settlement (`nextTick`), nothing else happens synchronously. -/
def capResolve (st : Machine) (pid : Nat) (v : Value) : Machine :=
  pushTask (.settleResolve pid v) st

/-- Calling the constructor-captured `reject` capability. -/
def capReject (st : Machine) (pid : Nat) (r : Value) : Machine :=
  pushTask (.settleReject pid r) st

/-- Behaviour of a user executor: a sequence of capability calls, a raise
aborting the rest. -/
inductive ExecAction where
  | callRes : Value → ExecAction
  | callRej : Value → ExecAction
  | thro : Value → ExecAction

/-- `try { executor(resolve, reject) } catch (error) { reject(error) }`
(source lines 124-128): run the executor's calls; a raise is caught and
turned into a `reject` call. -/
def runExec (pid : Nat) : List ExecAction → Machine → Machine
  | [], st => st
  | .callRes v :: rest, st => runExec pid rest (capResolve st pid v)
  | .callRej r :: rest, st => runExec pid rest (capReject st pid r)
  | .thro e :: _, st => capReject st pid e

/-- `new Promise(executor)`: initialise the record, then run the executor
synchronously under `try`/`catch`.  Returns the machine and the new id. -/
def newPromise (st : Machine) (acts : List ExecAction) : Machine × Nat :=
  let pid := st.promises.length
  let st := allocPromise st
  (runExec pid acts st, pid)

/-- `Promise.deferred()` (source lines 204-211): a promise whose executor
just captures the two capabilities; the handle's `resolve`/`reject` are
`capResolve`/`capReject` on the returned id. -/
def mkDeferred (st : Machine) : Machine × Nat := newPromise st []

/-! ### Heap access lemmas -/

theorem getPromise_pushTask (t : Task) (st : Machine) (pid : Nat) :
    getPromise (pushTask t st) pid = getPromise st pid := rfl

theorem getPromise_setFlag (st : Machine) (fid pid : Nat) :
    getPromise (setFlag st fid) pid = getPromise st pid := rfl

theorem getPromise_bumpFlag (st : Machine) (pid : Nat) :
    getPromise (bumpFlag st) pid = getPromise st pid := rfl

theorem getPromise_allocPromise (st : Machine) (pid : Nat) :
    getPromise (allocPromise st) pid = getPromise st pid := by
  unfold getPromise allocPromise
  rcases lt_or_ge pid st.promises.length with h | h
  · exact List.getD_append _ _ _ _ h
  · rw [List.getD_append_right _ _ _ _ h, List.getD_eq_default _ _ h]
    generalize pid - st.promises.length = k
    cases k <;> rfl

theorem getPromise_setPromise_ne (st : Machine) (pid : Nat) (rec : PromiseRec)
    (q : Nat) (h : pid ≠ q) :
    getPromise (setPromise st pid rec) q = getPromise st q := by
  unfold getPromise setPromise
  simp only [List.getD_eq_getD_get?, List.get?_eq_getElem?, List.getElem?_set_ne h]

theorem getPromise_setPromise_self (st : Machine) (pid : Nat) (rec : PromiseRec)
    (h : pid < st.promises.length) :
    getPromise (setPromise st pid rec) pid = rec := by
  unfold getPromise setPromise
  simp only [List.getD_eq_getD_get?, List.get?_eq_getElem?, List.getElem?_set_self h,
    Option.getD_some]

theorem setPromise_oob (st : Machine) (pid : Nat) (rec : PromiseRec)
    (h : st.promises.length ≤ pid) :
    setPromise st pid rec = st := by
  unfold setPromise
  rw [List.set_eq_of_length_le h]

/-! ### The single-population invariant

The spec's data-model invariant: a pending promise has neither payload
populated; a fulfilled promise has no reason; a rejected promise has no
value. -/

def onePop (rec : PromiseRec) : Prop :=
  (rec.state = .PENDING → rec.value = .undef ∧ rec.reason = .undef) ∧
  (rec.state = .RESOLVED → rec.reason = .undef) ∧
  (rec.state = .REJECTED → rec.value = .undef)

def onePopInv (st : Machine) : Prop := ∀ pid, onePop (getPromise st pid)

theorem onePop_default : onePop ({} : PromiseRec) := by
  refine ⟨fun _ => ⟨rfl, rfl⟩, fun h => ?_, fun h => ?_⟩ <;> exact absurd h (by decide)

theorem onePopInv_initMachine : onePopInv initMachine := fun _ => onePop_default

theorem onePopInv_pushTask (t : Task) (st : Machine) (h : onePopInv st) :
    onePopInv (pushTask t st) := h

theorem onePopInv_setFlag (st : Machine) (fid : Nat) (h : onePopInv st) :
    onePopInv (setFlag st fid) := h

theorem onePopInv_bumpFlag (st : Machine) (h : onePopInv st) :
    onePopInv (bumpFlag st) := h

theorem onePopInv_allocPromise (st : Machine) (h : onePopInv st) :
    onePopInv (allocPromise st) := by
  intro pid
  rw [getPromise_allocPromise]
  exact h pid

theorem onePopInv_setPromise (st : Machine) (pid : Nat) (rec : PromiseRec)
    (h : onePopInv st) (hrec : onePop rec) : onePopInv (setPromise st pid rec) := by
  intro q
  by_cases hq : pid = q
  · subst hq
    by_cases hlt : pid < st.promises.length
    · rw [getPromise_setPromise_self st pid rec hlt]; exact hrec
    · rw [setPromise_oob st pid rec (Nat.le_of_not_lt hlt)]; exact h pid
  · rw [getPromise_setPromise_ne st pid rec q hq]; exact h q

theorem onePopInv_thenOp (st : Machine) (selfPid : Nat) (onF onR : Value)
    (h : onePopInv st) : onePopInv (thenOp st selfPid onF onR).1 := by
  have hA : onePopInv (allocPromise st) := onePopInv_allocPromise st h
  simp only [thenOp]
  split <;> split <;> split <;>
    first
    | exact onePopInv_setPromise _ _ _
        (onePopInv_pushTask _ _ (onePopInv_pushTask _ _ hA)) (hA selfPid)
    | exact onePopInv_setPromise _ _ _ (onePopInv_pushTask _ _ hA) (hA selfPid)
    | exact onePopInv_setPromise _ _ _ hA (hA selfPid)
    | exact onePopInv_pushTask _ _ (onePopInv_pushTask _ _ hA)
    | exact onePopInv_pushTask _ _ hA
    | exact hA

/-! ### Unfolding equations for the resolution procedure

The equation compiler does not emit equational lemmas for this mutual
structural recursion over the nested inductive, but every defining
equation holds by `rfl`; we state them here for use with `rw`. -/

theorem rp_undef (p2 : Nat) (st : Machine) :
    resolvePromise p2 .undef st = pushTask (.settleResolve p2 .undef) (bumpFlag st) := rfl

theorem rp_num (p2 : Nat) (n : Int) (st : Machine) :
    resolvePromise p2 (.num n) st =
      pushTask (.settleResolve p2 (.num n)) (bumpFlag st) := rfl

theorem rp_str (p2 : Nat) (s : String) (st : Machine) :
    resolvePromise p2 (.str s) st =
      pushTask (.settleResolve p2 (.str s)) (bumpFlag st) := rfl

theorem rp_err (p2 : Nat) (m : String) (st : Machine) :
    resolvePromise p2 (.err m) st =
      pushTask (.settleResolve p2 (.err m)) (bumpFlag st) := rfl

theorem rp_tyerr (p2 : Nat) (m : String) (st : Machine) :
    resolvePromise p2 (.tyerr m) st =
      pushTask (.settleResolve p2 (.tyerr m)) (bumpFlag st) := rfl

theorem rp_func (p2 : Nat) (h : Handler) (st : Machine) :
    resolvePromise p2 (.func h) st =
      pushTask (.settleResolve p2 (.func h)) (bumpFlag st) := rfl

theorem rp_objNotFn (p2 : Nat) (st : Machine) :
    resolvePromise p2 (.obj .notFn) st =
      pushTask (.settleResolve p2 (.obj .notFn)) (bumpFlag st) := rfl

theorem rp_raise (p2 : Nat) (e : Value) (st : Machine) :
    resolvePromise p2 (.obj (.raise e)) st =
      if getFlag (bumpFlag st) st.flags.length then bumpFlag st
      else pushTask (.settleReject p2 e) (setFlag (bumpFlag st) st.flags.length) := rfl

theorem rp_fnField (p2 : Nat) (acts : List ThenAction) (st : Machine) :
    resolvePromise p2 (.obj (.fnField acts)) st =
      runActs p2 st.flags.length acts (bumpFlag st) := rfl

theorem rp_promiseRef (p2 q : Nat) (st : Machine) :
    resolvePromise p2 (.promiseRef q) st =
      if isSamePromise (.promiseRef q) p2 then
        pushTask (.settleReject p2 cycleErr) st
      else
        (thenOp (bumpFlag st) q (.func (.resCont st.flags.length p2))
          (.func (.rejCont st.flags.length p2))).1 := rfl

theorem ra_nil (p2 fid : Nat) (st : Machine) : runActs p2 fid [] st = st := rfl

theorem ra_callRes (p2 fid : Nat) (y : Value) (rest : List ThenAction) (st : Machine) :
    runActs p2 fid (.callRes y :: rest) st =
      if getFlag st fid then runActs p2 fid rest st
      else runActs p2 fid rest (resolvePromise p2 y (setFlag st fid)) := rfl

theorem ra_callRej (p2 fid : Nat) (r : Value) (rest : List ThenAction) (st : Machine) :
    runActs p2 fid (.callRej r :: rest) st =
      if getFlag st fid then runActs p2 fid rest st
      else runActs p2 fid rest (pushTask (.settleReject p2 r) (setFlag st fid)) := rfl

theorem ra_thro (p2 fid : Nat) (e : Value) (tail : List ThenAction) (st : Machine) :
    runActs p2 fid (.thro e :: tail) st =
      if getFlag st fid then st
      else pushTask (.settleReject p2 e) (setFlag st fid) := rfl

theorem isSamePromise_eq (t : Value) (p2 : Nat) (h : isSamePromise t p2 = true) :
    t = .promiseRef p2 := by
  cases t <;> simp_all [isSamePromise]

/-- When the identity check fires, the procedure rejects with the cycle
error regardless of anything else. -/
theorem rp_same (p2 : Nat) (x : Value) (st : Machine) (h : isSamePromise x p2 = true) :
    resolvePromise p2 x st = pushTask (.settleReject p2 cycleErr) st := by
  rw [isSamePromise_eq x p2 h]
  rw [rp_promiseRef, if_pos]
  simp [isSamePromise]

/-- Joint preservation of the invariant by the resolution procedure and by
the interpretation of a thenable's `then` body. -/
theorem onePopInv_resolution (p2 : Nat) :
    (∀ (x : Value) (st : Machine), onePopInv st → onePopInv (resolvePromise p2 x st)) ∧
    (∀ (fid : Nat) (acts : List ThenAction) (st : Machine),
      onePopInv st → onePopInv (runActs p2 fid acts st)) := by
  apply resolvePromise.mutual_induct p2
    (fun x st => onePopInv st → onePopInv (resolvePromise p2 x st))
    (fun fid acts st => onePopInv st → onePopInv (runActs p2 fid acts st))
  all_goals intros
  all_goals (try simp_all only [rp_same, rp_undef, rp_num, rp_str, rp_err, rp_tyerr,
    rp_func, rp_objNotFn, rp_raise, rp_fnField, rp_promiseRef, ra_nil, ra_callRes,
    ra_callRej, ra_thro, ite_true, ite_false])
  all_goals solve_by_elim [onePopInv_pushTask, onePopInv_setFlag, onePopInv_bumpFlag,
    onePopInv_thenOp]

theorem onePopInv_resolvePromise (p2 : Nat) (x : Value) (st : Machine)
    (h : onePopInv st) : onePopInv (resolvePromise p2 x st) :=
  (onePopInv_resolution p2).1 x st h

theorem onePopInv_evalHandler (h : Handler) (arg : Value) (st : Machine)
    (hin : onePopInv st) : onePopInv (evalHandler h arg st).1 := by
  cases h with
  | resCont fid p2 =>
      simp only [evalHandler]
      split
      · exact hin
      · exact onePopInv_resolvePromise p2 arg _ (onePopInv_setFlag st fid hin)
  | rejCont fid p2 =>
      simp only [evalHandler]
      split
      · exact hin
      · exact onePopInv_pushTask _ _ (onePopInv_setFlag st fid hin)
  | _ => exact hin

theorem onePopInv_runCb (c : Cb) (st : Machine) (h : onePopInv st) :
    onePopInv (runCb c st) := by
  simp only [runCb]
  rcases hx : evalHandler c.h
    (if c.useValue = true then (getPromise st c.parent).value
     else (getPromise st c.parent).reason) st
    with ⟨st', r⟩
  have hev := onePopInv_evalHandler c.h
    (if c.useValue = true then (getPromise st c.parent).value
     else (getPromise st c.parent).reason) st h
  rw [hx] at hev
  cases r with
  | ok x => exact onePopInv_resolvePromise c.p2 x st' hev
  | error e => exact onePopInv_pushTask _ _ hev

theorem onePopInv_drain (cbs : List Cb) (st : Machine) (h : onePopInv st) :
    onePopInv (cbs.foldl (fun s c => runCb c s) st) := by
  induction cbs generalizing st with
  | nil => exact h
  | cons c rest ih => exact ih (runCb c st) (onePopInv_runCb c st h)

theorem onePopInv_runTask (t : Task) (st : Machine) (h : onePopInv st) :
    onePopInv (runTask t st) := by
  cases t with
  | settleResolve pid v =>
      simp only [runTask]
      split
      · apply onePopInv_drain
        apply onePopInv_setPromise _ _ _ h
        have hp := h pid
        refine ⟨fun hs => absurd hs (by simp), fun _ => ?_, fun hs => absurd hs (by simp)⟩
        exact (hp.1 (by assumption)).2
      · exact h
  | settleReject pid r =>
      simp only [runTask]
      split
      · apply onePopInv_drain
        apply onePopInv_setPromise _ _ _ h
        have hp := h pid
        refine ⟨fun hs => absurd hs (by simp), fun hs => absurd hs (by simp), fun _ => ?_⟩
        exact (hp.1 (by assumption)).1
      · exact h
  | react c => exact onePopInv_runCb c st h

theorem onePopInv_step (st : Machine) (h : onePopInv st) : onePopInv (step st) := by
  unfold step
  split
  · exact h
  · exact onePopInv_runTask _ _ h

theorem onePopInv_run (k : Nat) (st : Machine) (h : onePopInv st) :
    onePopInv (run k st) := by
  induction k generalizing st with
  | zero => exact h
  | succ n ih => exact ih (step st) (onePopInv_step st h)

/-- Once the queue is empty nothing ever changes again. -/
theorem run_of_empty (k : Nat) (st : Machine) (h : st.queue = []) : run k st = st := by
  induction k with
  | zero => rfl
  | succ n ih =>
      show run n (step st) = st
      unfold step
      rw [h]
      exact ih

/-! ### Guard-flag lemma -/

/-- Once the `called` flag of a resolution-procedure invocation is set,
the rest of a thenable's `then` body has no effect whatsoever: every
further callback invocation and even a raise is ignored. -/
theorem runActs_called (p2 fid : Nat) (acts : List ThenAction) (st : Machine)
    (h : getFlag st fid = true) : runActs p2 fid acts st = st := by
  induction acts with
  | nil => exact ra_nil p2 fid st
  | cons a rest ih =>
      cases a with
      | callRes y => rw [ra_callRes, if_pos h]; exact ih
      | callRej r => rw [ra_callRej, if_pos h]; exact ih
      | thro e => rw [ra_thro, if_pos h]

/-- A non-function `then` argument is replaced by the given default
handler (source lines 136-141). -/
theorem asHandler_of_not_function (v : Value) (d : Handler)
    (h : isFunction v = false) : asHandler v d = d := by
  cases v <;> simp_all [asHandler, isFunction]

/-! ### Concrete programs for the claims, with their event-loop traces

Each `_prog` definition is a program built from the library operations;
the `_s0`, `_s1`, ... definitions are its machine states after 0, 1, ...
turns of the event loop, used as checkpoints in the proofs. -/

def c1cex_prog : Machine :=
  capResolve (mkDeferred initMachine).1 0 (.obj (.fnField [.callRes (.num 42)]))

def c1am_prog (n : Int) : Machine :=
  (thenOp (newPromise initMachine [.callRes .undef]).1 0
    (.func (.const (.obj (.fnField [.callRes (.num n)])))) .undef).1

def c2cex_prog : Machine :=
  capResolve (mkDeferred initMachine).1 0 (.promiseRef 0)

def c2am_prog : Machine :=
  capResolve (thenOp (mkDeferred initMachine).1 0
    (.func (.const (.promiseRef 1))) .undef).1 0 .undef

def c4_prog (n : Int) : Machine :=
  capResolve (thenOp (thenOp (mkDeferred initMachine).1 0
    (.func (.logv 1)) .undef).1 0 (.func (.logv 2)) .undef).1 0 (.num n)

def c5b_prog (a b c : Int) : Machine :=
  (thenOp (newPromise initMachine [.callRes .undef]).1 0
    (.func (.const (.obj (.fnField
      [.callRes (.num a), .callRes (.num b), .callRej (.num c)])))) .undef).1

def c5c_prog (a : Int) : Machine :=
  (thenOp (newPromise initMachine [.callRes .undef]).1 0
    (.func (.const (.obj (.fnField
      [.callRes (.num a), .thro (.err "boom")])))) .undef).1

def c5d1_prog (m : String) : Machine :=
  (thenOp (newPromise initMachine [.callRes .undef]).1 0
    (.func (.const (.obj (.raise (.err m))))) .undef).1

def c5d2_prog (m : String) : Machine :=
  (thenOp (newPromise initMachine [.callRes .undef]).1 0
    (.func (.const (.obj (.fnField [.thro (.err m)])))) .undef).1

def c6_prog (m : String) : Machine :=
  (thenOp (thenOp (newPromise initMachine [.callRes .undef]).1 0
    (.func (.thro (.err m))) .undef).1 1 .undef (.func .getMsg)).1

def c7_prog (e : Value) : Machine :=
  (newPromise initMachine [.thro e]).1

def c8A_prog (n : Int) : Machine :=
  (thenOp (thenOp (newPromise initMachine [.callRes (.num n)]).1 0
    .undef .undef).1 1 (.func .ident) .undef).1

def c8B_prog (m : String) : Machine :=
  (thenOp (newPromise initMachine [.callRej (.err m)]).1 0 .undef .undef).1

def c9_prog (v r : Value) : Machine :=
  capReject (capResolve (mkDeferred initMachine).1 0 v) 0 r

def c3w : Machine := run 1 (capResolve (mkDeferred initMachine).1 0 (.num 1))

def c5w : Machine := setFlag (bumpFlag initMachine) 0


def c1cex_s0 : Machine :=
  { promises := [{ state := PState.PENDING, value := Value.undef, reason := Value.undef, resolvedCallbacks := [], rejectedCallbacks := [] }], flags := [], queue := [Task.settleResolve 0 (Value.obj (ThenField.fnField [ThenAction.callRes (Value.num 42)]))], log := [] }

def c1cex_s1 : Machine :=
  { promises := [{ state := PState.RESOLVED, value := Value.obj (ThenField.fnField [ThenAction.callRes (Value.num 42)]), reason := Value.undef, resolvedCallbacks := [], rejectedCallbacks := [] }], flags := [], queue := [], log := [] }

def c1am_s0 (n : Int) : Machine :=
  { promises := [{ state := PState.PENDING, value := Value.undef, reason := Value.undef, resolvedCallbacks := [{ parent := 0, p2 := 1, h := Handler.const (Value.obj (ThenField.fnField [ThenAction.callRes (Value.num n)])), useValue := true }], rejectedCallbacks := [{ parent := 0, p2 := 1, h := Handler.rethrow, useValue := false }] }, { state := PState.PENDING, value := Value.undef, reason := Value.undef, resolvedCallbacks := [], rejectedCallbacks := [] }], flags := [], queue := [Task.settleResolve 0 (Value.undef)], log := [] }

def c1am_s1 (n : Int) : Machine :=
  { promises := [{ state := PState.RESOLVED, value := Value.undef, reason := Value.undef, resolvedCallbacks := [{ parent := 0, p2 := 1, h := Handler.const (Value.obj (ThenField.fnField [ThenAction.callRes (Value.num n)])), useValue := true }], rejectedCallbacks := [{ parent := 0, p2 := 1, h := Handler.rethrow, useValue := false }] }, { state := PState.PENDING, value := Value.undef, reason := Value.undef, resolvedCallbacks := [], rejectedCallbacks := [] }], flags := [true, false], queue := [Task.settleResolve 1 (Value.num n)], log := [] }

def c1am_s2 (n : Int) : Machine :=
  { promises := [{ state := PState.RESOLVED, value := Value.undef, reason := Value.undef, resolvedCallbacks := [{ parent := 0, p2 := 1, h := Handler.const (Value.obj (ThenField.fnField [ThenAction.callRes (Value.num n)])), useValue := true }], rejectedCallbacks := [{ parent := 0, p2 := 1, h := Handler.rethrow, useValue := false }] }, { state := PState.RESOLVED, value := Value.num n, reason := Value.undef, resolvedCallbacks := [], rejectedCallbacks := [] }], flags := [true, false], queue := [], log := [] }

def c2cex_s0 : Machine :=
  { promises := [{ state := PState.PENDING, value := Value.undef, reason := Value.undef, resolvedCallbacks := [], rejectedCallbacks := [] }], flags := [], queue := [Task.settleResolve 0 (Value.promiseRef 0)], log := [] }

def c2cex_s1 : Machine :=
  { promises := [{ state := PState.RESOLVED, value := Value.promiseRef 0, reason := Value.undef, resolvedCallbacks := [], rejectedCallbacks := [] }], flags := [], queue := [], log := [] }

def c2am_s0 : Machine :=
  { promises := [{ state := PState.PENDING, value := Value.undef, reason := Value.undef, resolvedCallbacks := [{ parent := 0, p2 := 1, h := Handler.const (Value.promiseRef 1), useValue := true }], rejectedCallbacks := [{ parent := 0, p2 := 1, h := Handler.rethrow, useValue := false }] }, { state := PState.PENDING, value := Value.undef, reason := Value.undef, resolvedCallbacks := [], rejectedCallbacks := [] }], flags := [], queue := [Task.settleResolve 0 (Value.undef)], log := [] }

def c2am_s1 : Machine :=
  { promises := [{ state := PState.RESOLVED, value := Value.undef, reason := Value.undef, resolvedCallbacks := [{ parent := 0, p2 := 1, h := Handler.const (Value.promiseRef 1), useValue := true }], rejectedCallbacks := [{ parent := 0, p2 := 1, h := Handler.rethrow, useValue := false }] }, { state := PState.PENDING, value := Value.undef, reason := Value.undef, resolvedCallbacks := [], rejectedCallbacks := [] }], flags := [], queue := [Task.settleReject 1 (Value.tyerr "Error 循环引用")], log := [] }

def c2am_s2 : Machine :=
  { promises := [{ state := PState.RESOLVED, value := Value.undef, reason := Value.undef, resolvedCallbacks := [{ parent := 0, p2 := 1, h := Handler.const (Value.promiseRef 1), useValue := true }], rejectedCallbacks := [{ parent := 0, p2 := 1, h := Handler.rethrow, useValue := false }] }, { state := PState.REJECTED, value := Value.undef, reason := Value.tyerr "Error 循环引用", resolvedCallbacks := [], rejectedCallbacks := [] }], flags := [], queue := [], log := [] }

def c4_s0 (n : Int) : Machine :=
  { promises := [{ state := PState.PENDING, value := Value.undef, reason := Value.undef, resolvedCallbacks := [{ parent := 0, p2 := 1, h := Handler.logv 1, useValue := true }, { parent := 0, p2 := 2, h := Handler.logv 2, useValue := true }], rejectedCallbacks := [{ parent := 0, p2 := 1, h := Handler.rethrow, useValue := false }, { parent := 0, p2 := 2, h := Handler.rethrow, useValue := false }] }, { state := PState.PENDING, value := Value.undef, reason := Value.undef, resolvedCallbacks := [], rejectedCallbacks := [] }, { state := PState.PENDING, value := Value.undef, reason := Value.undef, resolvedCallbacks := [], rejectedCallbacks := [] }], flags := [], queue := [Task.settleResolve 0 (Value.num n)], log := [] }

def c4_s1 (n : Int) : Machine :=
  { promises := [{ state := PState.RESOLVED, value := Value.num n, reason := Value.undef, resolvedCallbacks := [{ parent := 0, p2 := 1, h := Handler.logv 1, useValue := true }, { parent := 0, p2 := 2, h := Handler.logv 2, useValue := true }], rejectedCallbacks := [{ parent := 0, p2 := 1, h := Handler.rethrow, useValue := false }, { parent := 0, p2 := 2, h := Handler.rethrow, useValue := false }] }, { state := PState.PENDING, value := Value.undef, reason := Value.undef, resolvedCallbacks := [], rejectedCallbacks := [] }, { state := PState.PENDING, value := Value.undef, reason := Value.undef, resolvedCallbacks := [], rejectedCallbacks := [] }], flags := [false, false], queue := [Task.settleResolve 1 (Value.num n), Task.settleResolve 2 (Value.num n)], log := [(1, Value.num n), (2, Value.num n)] }

def c4_s2 (n : Int) : Machine :=
  { promises := [{ state := PState.RESOLVED, value := Value.num n, reason := Value.undef, resolvedCallbacks := [{ parent := 0, p2 := 1, h := Handler.logv 1, useValue := true }, { parent := 0, p2 := 2, h := Handler.logv 2, useValue := true }], rejectedCallbacks := [{ parent := 0, p2 := 1, h := Handler.rethrow, useValue := false }, { parent := 0, p2 := 2, h := Handler.rethrow, useValue := false }] }, { state := PState.RESOLVED, value := Value.num n, reason := Value.undef, resolvedCallbacks := [], rejectedCallbacks := [] }, { state := PState.PENDING, value := Value.undef, reason := Value.undef, resolvedCallbacks := [], rejectedCallbacks := [] }], flags := [false, false], queue := [Task.settleResolve 2 (Value.num n)], log := [(1, Value.num n), (2, Value.num n)] }

def c4_s3 (n : Int) : Machine :=
  { promises := [{ state := PState.RESOLVED, value := Value.num n, reason := Value.undef, resolvedCallbacks := [{ parent := 0, p2 := 1, h := Handler.logv 1, useValue := true }, { parent := 0, p2 := 2, h := Handler.logv 2, useValue := true }], rejectedCallbacks := [{ parent := 0, p2 := 1, h := Handler.rethrow, useValue := false }, { parent := 0, p2 := 2, h := Handler.rethrow, useValue := false }] }, { state := PState.RESOLVED, value := Value.num n, reason := Value.undef, resolvedCallbacks := [], rejectedCallbacks := [] }, { state := PState.RESOLVED, value := Value.num n, reason := Value.undef, resolvedCallbacks := [], rejectedCallbacks := [] }], flags := [false, false], queue := [], log := [(1, Value.num n), (2, Value.num n)] }

def c5b_s0 (a b c : Int) : Machine :=
  { promises := [{ state := PState.PENDING, value := Value.undef, reason := Value.undef, resolvedCallbacks := [{ parent := 0, p2 := 1, h := Handler.const (Value.obj (ThenField.fnField [ThenAction.callRes (Value.num a), ThenAction.callRes (Value.num b), ThenAction.callRej (Value.num c)])), useValue := true }], rejectedCallbacks := [{ parent := 0, p2 := 1, h := Handler.rethrow, useValue := false }] }, { state := PState.PENDING, value := Value.undef, reason := Value.undef, resolvedCallbacks := [], rejectedCallbacks := [] }], flags := [], queue := [Task.settleResolve 0 (Value.undef)], log := [] }

def c5b_s1 (a b c : Int) : Machine :=
  { promises := [{ state := PState.RESOLVED, value := Value.undef, reason := Value.undef, resolvedCallbacks := [{ parent := 0, p2 := 1, h := Handler.const (Value.obj (ThenField.fnField [ThenAction.callRes (Value.num a), ThenAction.callRes (Value.num b), ThenAction.callRej (Value.num c)])), useValue := true }], rejectedCallbacks := [{ parent := 0, p2 := 1, h := Handler.rethrow, useValue := false }] }, { state := PState.PENDING, value := Value.undef, reason := Value.undef, resolvedCallbacks := [], rejectedCallbacks := [] }], flags := [true, false], queue := [Task.settleResolve 1 (Value.num a)], log := [] }

def c5b_s2 (a b c : Int) : Machine :=
  { promises := [{ state := PState.RESOLVED, value := Value.undef, reason := Value.undef, resolvedCallbacks := [{ parent := 0, p2 := 1, h := Handler.const (Value.obj (ThenField.fnField [ThenAction.callRes (Value.num a), ThenAction.callRes (Value.num b), ThenAction.callRej (Value.num c)])), useValue := true }], rejectedCallbacks := [{ parent := 0, p2 := 1, h := Handler.rethrow, useValue := false }] }, { state := PState.RESOLVED, value := Value.num a, reason := Value.undef, resolvedCallbacks := [], rejectedCallbacks := [] }], flags := [true, false], queue := [], log := [] }

def c5c_s0 (a : Int) : Machine :=
  { promises := [{ state := PState.PENDING, value := Value.undef, reason := Value.undef, resolvedCallbacks := [{ parent := 0, p2 := 1, h := Handler.const (Value.obj (ThenField.fnField [ThenAction.callRes (Value.num a), ThenAction.thro (Value.err "boom")])), useValue := true }], rejectedCallbacks := [{ parent := 0, p2 := 1, h := Handler.rethrow, useValue := false }] }, { state := PState.PENDING, value := Value.undef, reason := Value.undef, resolvedCallbacks := [], rejectedCallbacks := [] }], flags := [], queue := [Task.settleResolve 0 (Value.undef)], log := [] }

def c5c_s1 (a : Int) : Machine :=
  { promises := [{ state := PState.RESOLVED, value := Value.undef, reason := Value.undef, resolvedCallbacks := [{ parent := 0, p2 := 1, h := Handler.const (Value.obj (ThenField.fnField [ThenAction.callRes (Value.num a), ThenAction.thro (Value.err "boom")])), useValue := true }], rejectedCallbacks := [{ parent := 0, p2 := 1, h := Handler.rethrow, useValue := false }] }, { state := PState.PENDING, value := Value.undef, reason := Value.undef, resolvedCallbacks := [], rejectedCallbacks := [] }], flags := [true, false], queue := [Task.settleResolve 1 (Value.num a)], log := [] }

def c5c_s2 (a : Int) : Machine :=
  { promises := [{ state := PState.RESOLVED, value := Value.undef, reason := Value.undef, resolvedCallbacks := [{ parent := 0, p2 := 1, h := Handler.const (Value.obj (ThenField.fnField [ThenAction.callRes (Value.num a), ThenAction.thro (Value.err "boom")])), useValue := true }], rejectedCallbacks := [{ parent := 0, p2 := 1, h := Handler.rethrow, useValue := false }] }, { state := PState.RESOLVED, value := Value.num a, reason := Value.undef, resolvedCallbacks := [], rejectedCallbacks := [] }], flags := [true, false], queue := [], log := [] }

def c5d1_s0 (m : String) : Machine :=
  { promises := [{ state := PState.PENDING, value := Value.undef, reason := Value.undef, resolvedCallbacks := [{ parent := 0, p2 := 1, h := Handler.const (Value.obj (ThenField.raise (Value.err m))), useValue := true }], rejectedCallbacks := [{ parent := 0, p2 := 1, h := Handler.rethrow, useValue := false }] }, { state := PState.PENDING, value := Value.undef, reason := Value.undef, resolvedCallbacks := [], rejectedCallbacks := [] }], flags := [], queue := [Task.settleResolve 0 (Value.undef)], log := [] }

def c5d1_s1 (m : String) : Machine :=
  { promises := [{ state := PState.RESOLVED, value := Value.undef, reason := Value.undef, resolvedCallbacks := [{ parent := 0, p2 := 1, h := Handler.const (Value.obj (ThenField.raise (Value.err m))), useValue := true }], rejectedCallbacks := [{ parent := 0, p2 := 1, h := Handler.rethrow, useValue := false }] }, { state := PState.PENDING, value := Value.undef, reason := Value.undef, resolvedCallbacks := [], rejectedCallbacks := [] }], flags := [true], queue := [Task.settleReject 1 (Value.err m)], log := [] }

def c5d1_s2 (m : String) : Machine :=
  { promises := [{ state := PState.RESOLVED, value := Value.undef, reason := Value.undef, resolvedCallbacks := [{ parent := 0, p2 := 1, h := Handler.const (Value.obj (ThenField.raise (Value.err m))), useValue := true }], rejectedCallbacks := [{ parent := 0, p2 := 1, h := Handler.rethrow, useValue := false }] }, { state := PState.REJECTED, value := Value.undef, reason := Value.err m, resolvedCallbacks := [], rejectedCallbacks := [] }], flags := [true], queue := [], log := [] }

def c5d2_s0 (m : String) : Machine :=
  { promises := [{ state := PState.PENDING, value := Value.undef, reason := Value.undef, resolvedCallbacks := [{ parent := 0, p2 := 1, h := Handler.const (Value.obj (ThenField.fnField [ThenAction.thro (Value.err m)])), useValue := true }], rejectedCallbacks := [{ parent := 0, p2 := 1, h := Handler.rethrow, useValue := false }] }, { state := PState.PENDING, value := Value.undef, reason := Value.undef, resolvedCallbacks := [], rejectedCallbacks := [] }], flags := [], queue := [Task.settleResolve 0 (Value.undef)], log := [] }

def c5d2_s1 (m : String) : Machine :=
  { promises := [{ state := PState.RESOLVED, value := Value.undef, reason := Value.undef, resolvedCallbacks := [{ parent := 0, p2 := 1, h := Handler.const (Value.obj (ThenField.fnField [ThenAction.thro (Value.err m)])), useValue := true }], rejectedCallbacks := [{ parent := 0, p2 := 1, h := Handler.rethrow, useValue := false }] }, { state := PState.PENDING, value := Value.undef, reason := Value.undef, resolvedCallbacks := [], rejectedCallbacks := [] }], flags := [true], queue := [Task.settleReject 1 (Value.err m)], log := [] }

def c5d2_s2 (m : String) : Machine :=
  { promises := [{ state := PState.RESOLVED, value := Value.undef, reason := Value.undef, resolvedCallbacks := [{ parent := 0, p2 := 1, h := Handler.const (Value.obj (ThenField.fnField [ThenAction.thro (Value.err m)])), useValue := true }], rejectedCallbacks := [{ parent := 0, p2 := 1, h := Handler.rethrow, useValue := false }] }, { state := PState.REJECTED, value := Value.undef, reason := Value.err m, resolvedCallbacks := [], rejectedCallbacks := [] }], flags := [true], queue := [], log := [] }

def c6_s0 (m : String) : Machine :=
  { promises := [{ state := PState.PENDING, value := Value.undef, reason := Value.undef, resolvedCallbacks := [{ parent := 0, p2 := 1, h := Handler.thro (Value.err m), useValue := true }], rejectedCallbacks := [{ parent := 0, p2 := 1, h := Handler.rethrow, useValue := false }] }, { state := PState.PENDING, value := Value.undef, reason := Value.undef, resolvedCallbacks := [{ parent := 1, p2 := 2, h := Handler.ident, useValue := true }], rejectedCallbacks := [{ parent := 1, p2 := 2, h := Handler.getMsg, useValue := false }] }, { state := PState.PENDING, value := Value.undef, reason := Value.undef, resolvedCallbacks := [], rejectedCallbacks := [] }], flags := [], queue := [Task.settleResolve 0 (Value.undef)], log := [] }

def c6_s1 (m : String) : Machine :=
  { promises := [{ state := PState.RESOLVED, value := Value.undef, reason := Value.undef, resolvedCallbacks := [{ parent := 0, p2 := 1, h := Handler.thro (Value.err m), useValue := true }], rejectedCallbacks := [{ parent := 0, p2 := 1, h := Handler.rethrow, useValue := false }] }, { state := PState.PENDING, value := Value.undef, reason := Value.undef, resolvedCallbacks := [{ parent := 1, p2 := 2, h := Handler.ident, useValue := true }], rejectedCallbacks := [{ parent := 1, p2 := 2, h := Handler.getMsg, useValue := false }] }, { state := PState.PENDING, value := Value.undef, reason := Value.undef, resolvedCallbacks := [], rejectedCallbacks := [] }], flags := [], queue := [Task.settleReject 1 (Value.err m)], log := [] }

def c6_s2 (m : String) : Machine :=
  { promises := [{ state := PState.RESOLVED, value := Value.undef, reason := Value.undef, resolvedCallbacks := [{ parent := 0, p2 := 1, h := Handler.thro (Value.err m), useValue := true }], rejectedCallbacks := [{ parent := 0, p2 := 1, h := Handler.rethrow, useValue := false }] }, { state := PState.REJECTED, value := Value.undef, reason := Value.err m, resolvedCallbacks := [{ parent := 1, p2 := 2, h := Handler.ident, useValue := true }], rejectedCallbacks := [{ parent := 1, p2 := 2, h := Handler.getMsg, useValue := false }] }, { state := PState.PENDING, value := Value.undef, reason := Value.undef, resolvedCallbacks := [], rejectedCallbacks := [] }], flags := [false], queue := [Task.settleResolve 2 (Value.str m)], log := [] }

def c6_s3 (m : String) : Machine :=
  { promises := [{ state := PState.RESOLVED, value := Value.undef, reason := Value.undef, resolvedCallbacks := [{ parent := 0, p2 := 1, h := Handler.thro (Value.err m), useValue := true }], rejectedCallbacks := [{ parent := 0, p2 := 1, h := Handler.rethrow, useValue := false }] }, { state := PState.REJECTED, value := Value.undef, reason := Value.err m, resolvedCallbacks := [{ parent := 1, p2 := 2, h := Handler.ident, useValue := true }], rejectedCallbacks := [{ parent := 1, p2 := 2, h := Handler.getMsg, useValue := false }] }, { state := PState.RESOLVED, value := Value.str m, reason := Value.undef, resolvedCallbacks := [], rejectedCallbacks := [] }], flags := [false], queue := [], log := [] }

def c7_s0 (e : Value) : Machine :=
  { promises := [{ state := PState.PENDING, value := Value.undef, reason := Value.undef, resolvedCallbacks := [], rejectedCallbacks := [] }], flags := [], queue := [Task.settleReject 0 (e)], log := [] }

def c7_s1 (e : Value) : Machine :=
  { promises := [{ state := PState.REJECTED, value := Value.undef, reason := e, resolvedCallbacks := [], rejectedCallbacks := [] }], flags := [], queue := [], log := [] }

def c8A_s0 (n : Int) : Machine :=
  { promises := [{ state := PState.PENDING, value := Value.undef, reason := Value.undef, resolvedCallbacks := [{ parent := 0, p2 := 1, h := Handler.ident, useValue := true }], rejectedCallbacks := [{ parent := 0, p2 := 1, h := Handler.rethrow, useValue := false }] }, { state := PState.PENDING, value := Value.undef, reason := Value.undef, resolvedCallbacks := [{ parent := 1, p2 := 2, h := Handler.ident, useValue := true }], rejectedCallbacks := [{ parent := 1, p2 := 2, h := Handler.rethrow, useValue := false }] }, { state := PState.PENDING, value := Value.undef, reason := Value.undef, resolvedCallbacks := [], rejectedCallbacks := [] }], flags := [], queue := [Task.settleResolve 0 (Value.num n)], log := [] }

def c8A_s1 (n : Int) : Machine :=
  { promises := [{ state := PState.RESOLVED, value := Value.num n, reason := Value.undef, resolvedCallbacks := [{ parent := 0, p2 := 1, h := Handler.ident, useValue := true }], rejectedCallbacks := [{ parent := 0, p2 := 1, h := Handler.rethrow, useValue := false }] }, { state := PState.PENDING, value := Value.undef, reason := Value.undef, resolvedCallbacks := [{ parent := 1, p2 := 2, h := Handler.ident, useValue := true }], rejectedCallbacks := [{ parent := 1, p2 := 2, h := Handler.rethrow, useValue := false }] }, { state := PState.PENDING, value := Value.undef, reason := Value.undef, resolvedCallbacks := [], rejectedCallbacks := [] }], flags := [false], queue := [Task.settleResolve 1 (Value.num n)], log := [] }

def c8A_s2 (n : Int) : Machine :=
  { promises := [{ state := PState.RESOLVED, value := Value.num n, reason := Value.undef, resolvedCallbacks := [{ parent := 0, p2 := 1, h := Handler.ident, useValue := true }], rejectedCallbacks := [{ parent := 0, p2 := 1, h := Handler.rethrow, useValue := false }] }, { state := PState.RESOLVED, value := Value.num n, reason := Value.undef, resolvedCallbacks := [{ parent := 1, p2 := 2, h := Handler.ident, useValue := true }], rejectedCallbacks := [{ parent := 1, p2 := 2, h := Handler.rethrow, useValue := false }] }, { state := PState.PENDING, value := Value.undef, reason := Value.undef, resolvedCallbacks := [], rejectedCallbacks := [] }], flags := [false, false], queue := [Task.settleResolve 2 (Value.num n)], log := [] }

def c8A_s3 (n : Int) : Machine :=
  { promises := [{ state := PState.RESOLVED, value := Value.num n, reason := Value.undef, resolvedCallbacks := [{ parent := 0, p2 := 1, h := Handler.ident, useValue := true }], rejectedCallbacks := [{ parent := 0, p2 := 1, h := Handler.rethrow, useValue := false }] }, { state := PState.RESOLVED, value := Value.num n, reason := Value.undef, resolvedCallbacks := [{ parent := 1, p2 := 2, h := Handler.ident, useValue := true }], rejectedCallbacks := [{ parent := 1, p2 := 2, h := Handler.rethrow, useValue := false }] }, { state := PState.RESOLVED, value := Value.num n, reason := Value.undef, resolvedCallbacks := [], rejectedCallbacks := [] }], flags := [false, false], queue := [], log := [] }

def c8B_s0 (m : String) : Machine :=
  { promises := [{ state := PState.PENDING, value := Value.undef, reason := Value.undef, resolvedCallbacks := [{ parent := 0, p2 := 1, h := Handler.ident, useValue := true }], rejectedCallbacks := [{ parent := 0, p2 := 1, h := Handler.rethrow, useValue := false }] }, { state := PState.PENDING, value := Value.undef, reason := Value.undef, resolvedCallbacks := [], rejectedCallbacks := [] }], flags := [], queue := [Task.settleReject 0 (Value.err m)], log := [] }

def c8B_s1 (m : String) : Machine :=
  { promises := [{ state := PState.REJECTED, value := Value.undef, reason := Value.err m, resolvedCallbacks := [{ parent := 0, p2 := 1, h := Handler.ident, useValue := true }], rejectedCallbacks := [{ parent := 0, p2 := 1, h := Handler.rethrow, useValue := false }] }, { state := PState.PENDING, value := Value.undef, reason := Value.undef, resolvedCallbacks := [], rejectedCallbacks := [] }], flags := [], queue := [Task.settleReject 1 (Value.err m)], log := [] }

def c8B_s2 (m : String) : Machine :=
  { promises := [{ state := PState.REJECTED, value := Value.undef, reason := Value.err m, resolvedCallbacks := [{ parent := 0, p2 := 1, h := Handler.ident, useValue := true }], rejectedCallbacks := [{ parent := 0, p2 := 1, h := Handler.rethrow, useValue := false }] }, { state := PState.REJECTED, value := Value.undef, reason := Value.err m, resolvedCallbacks := [], rejectedCallbacks := [] }], flags := [], queue := [], log := [] }

def c9_s0 (v r : Value) : Machine :=
  { promises := [{ state := PState.PENDING, value := Value.undef, reason := Value.undef, resolvedCallbacks := [], rejectedCallbacks := [] }], flags := [], queue := [Task.settleResolve 0 (v), Task.settleReject 0 (r)], log := [] }

def c9_s1 (v r : Value) : Machine :=
  { promises := [{ state := PState.RESOLVED, value := v, reason := Value.undef, resolvedCallbacks := [], rejectedCallbacks := [] }], flags := [], queue := [Task.settleReject 0 (r)], log := [] }

def c9_s2 (v r : Value) : Machine :=
  { promises := [{ state := PState.RESOLVED, value := v, reason := Value.undef, resolvedCallbacks := [], rejectedCallbacks := [] }], flags := [], queue := [], log := [] }

/-! ### Claim theorems -/

set_option maxHeartbeats 1000000 in
/-- Claim C1, counterexample: the claim asserts that calling the resolve
capability with a thenable never settles the promise with the thenable
itself but adopts the inner result (42).  In the code the constructor's
`resolve` stores the value directly: the deferred handle's `resolve`
called with `{then(res,rej){res(42)}}` fulfills the promise with that
thenable object itself — not pending, not `42` — and the event queue is
drained, so (by C3's monotonicity) nothing can ever change it. -/
theorem c1_counterexample :
    stateOf (run 1 c1cex_prog) 0 = .RESOLVED ∧
    valueOf (run 1 c1cex_prog) 0 = .obj (.fnField [.callRes (.num 42)]) ∧
    (run 1 c1cex_prog).queue = [] ∧
    decide (stateOf (run 1 c1cex_prog) 0 = .PENDING) = false := by
  have key : run 1 c1cex_prog = c1cex_s1 := by
    show step c1cex_prog = c1cex_s1
    rw [show c1cex_prog = c1cex_s0 from rfl]
    exact rfl
  refine ⟨?_, ?_, ?_, ?_⟩ <;> (rw [key]; rfl)

set_option maxHeartbeats 1000000 in
/-- Claim C1, amended: it is the Resolution Procedure — applied to the
value returned by a `then` handler — that adopts thenables: a handler
returning `{then(res,rej){res(n)}}` causes the `then`-returned promise to
eventually (and stably) fulfill with `n`, not with the thenable object.
The bare resolve capability, by contrast, stores its argument as-is
(see the counterexample). -/
theorem c1_amended (n : Int) :
    stateOf (run 2 (c1am_prog n)) 1 = .RESOLVED ∧
    valueOf (run 2 (c1am_prog n)) 1 = .num n ∧
    ∀ k, stateOf (run k (run 2 (c1am_prog n))) 1 = .RESOLVED ∧
      valueOf (run k (run 2 (c1am_prog n))) 1 = .num n := by
  have key : run 2 (c1am_prog n) = c1am_s2 n := by
    show step (step (c1am_prog n)) = c1am_s2 n
    rw [show c1am_prog n = c1am_s0 n from rfl,
      show step (c1am_s0 n) = c1am_s1 n from rfl]
    exact rfl
  refine ⟨?_, ?_, ?_⟩
  · rw [key]; rfl
  · rw [key]; rfl
  · intro k; rw [key, run_of_empty k _ rfl]; exact ⟨rfl, rfl⟩

set_option maxHeartbeats 1000000 in
/-- Claim C2, counterexample: the claim asserts that resolving a promise
with itself (via the deferred handle's resolve) settles it rejected with a
cycle error.  In the code the constructor's `resolve` performs no identity
check: `dfd.resolve(dfd.promise)` fulfills the promise with itself —
not rejected, no reason stored — and the event queue is drained, so (by
C3's monotonicity) it stays fulfilled with itself forever. -/
theorem c2_counterexample :
    stateOf (run 1 c2cex_prog) 0 = .RESOLVED ∧
    valueOf (run 1 c2cex_prog) 0 = .promiseRef 0 ∧
    reasonOf (run 1 c2cex_prog) 0 = .undef ∧
    (run 1 c2cex_prog).queue = [] ∧
    decide (stateOf (run 1 c2cex_prog) 0 = .REJECTED) = false := by
  have key : run 1 c2cex_prog = c2cex_s1 := by
    show step c2cex_prog = c2cex_s1
    rw [show c2cex_prog = c2cex_s0 from rfl]
    exact rfl
  refine ⟨?_, ?_, ?_, ?_, ?_⟩ <;> (rw [key]; rfl)

set_option maxHeartbeats 1000000 in
/-- Claim C2, amended: the cycle check lives in the Resolution Procedure:
when a `then` handler returns the very promise that `then` created
(`promise2 === x`), that promise is rejected with the
`TypeError('Error 循环引用')` cycle error — never fulfilled and not left
pending. -/
theorem c2_amended :
    stateOf (run 2 c2am_prog) 1 = .REJECTED ∧
    reasonOf (run 2 c2am_prog) 1 = cycleErr ∧
    ∀ k, stateOf (run k (run 2 c2am_prog)) 1 = .REJECTED := by
  have key : run 2 c2am_prog = c2am_s2 := by
    show step (step c2am_prog) = c2am_s2
    rw [show c2am_prog = c2am_s0 from rfl, show step c2am_s0 = c2am_s1 from rfl]
    exact rfl
  refine ⟨?_, ?_, ?_⟩
  · rw [key]; rfl
  · rw [key]; rfl
  · intro k; rw [key, run_of_empty k _ rfl]; rfl


/-- Claim C3: once a promise has left `PENDING`, a further `resolve` or
`reject` settlement is a complete no-op on the machine state; calling a
capability never touches the promise heap synchronously (it only
enqueues); and the single-population invariant — pending promises carry no
payload, a fulfilled promise has no reason, a rejected one no value — holds
initially and is preserved by every task and every event-loop run. -/
theorem c3_monotonic :
    (∀ (st : Machine) (pid : Nat) (v r : Value), stateOf st pid ≠ .PENDING →
      runTask (.settleResolve pid v) st = st ∧ runTask (.settleReject pid r) st = st) ∧
    (∀ (st : Machine) (pid : Nat) (v : Value),
      (capResolve st pid v).promises = st.promises ∧
      (capReject st pid v).promises = st.promises) ∧
    onePopInv initMachine ∧
    (∀ (k : Nat) (st : Machine), onePopInv st → onePopInv (run k st)) ∧
    (∀ (t : Task) (st : Machine), onePopInv st → onePopInv (runTask t st)) := by
  refine ⟨?_, fun st pid v => ⟨rfl, rfl⟩, onePopInv_initMachine, onePopInv_run,
    onePopInv_runTask⟩
  intro st pid v r h
  constructor
  · simp only [runTask]
    rw [if_neg (show ¬((getPromise st pid).state = PState.PENDING) from h)]
  · simp only [runTask]
    rw [if_neg (show ¬((getPromise st pid).state = PState.PENDING) from h)]

/-- Witness for C3 on concrete inputs: a machine holding one promise
already fulfilled with `1` ignores a late resolve and a late reject, and
the invariant holds after running the initial machine. -/
theorem c3_monotonic_witness :
    (runTask (.settleResolve 0 (.num 9)) c3w = c3w ∧
      runTask (.settleReject 0 (.str "late")) c3w = c3w) ∧
    onePopInv (run 3 initMachine) :=
  ⟨c3_monotonic.1 c3w 0 (.num 9) (.str "late") (by decide),
   c3_monotonic.2.2.2.1 3 initMachine c3_monotonic.2.2.1⟩

set_option maxHeartbeats 1000000 in
/-- Claim C4: two continuations registered on the same pending promise run
in registration order when it settles (`logv 1` before `logv 2`, both
receiving the fulfillment value), and strictly after the call to the
resolve capability returns: at that moment the log is still empty and all
promises still pending — a capability call only enqueues a task, leaving
the promise heap and the log untouched. -/
theorem c4_ordering (n : Int) :
    ((c4_prog n).log = [] ∧ stateOf (c4_prog n) 0 = .PENDING ∧
      stateOf (c4_prog n) 1 = .PENDING ∧ stateOf (c4_prog n) 2 = .PENDING) ∧
    (run 3 (c4_prog n)).log = [(1, .num n), (2, .num n)] ∧
    (∀ (st : Machine) (pid : Nat) (v : Value),
      (capResolve st pid v).promises = st.promises ∧
      (capResolve st pid v).log = st.log ∧
      (capReject st pid v).promises = st.promises ∧
      (capReject st pid v).log = st.log) := by
  have h0 : c4_prog n = c4_s0 n := rfl
  have key : run 3 (c4_prog n) = c4_s3 n := by
    show step (step (step (c4_prog n))) = c4_s3 n
    rw [h0, show step (c4_s0 n) = c4_s1 n from rfl,
      show step (c4_s1 n) = c4_s2 n from rfl]
    exact rfl
  refine ⟨⟨?_, ?_, ?_, ?_⟩, ?_, fun st pid v => ⟨rfl, rfl, rfl, rfl⟩⟩
  · rw [h0]; rfl
  · rw [h0]; rfl
  · rw [h0]; rfl
  · rw [h0]; rfl
  · rw [key]; rfl

set_option maxHeartbeats 2000000 in
/-- Claim C5: the `called` guard of the Resolution Procedure.  In general,
once the flag is set the whole remainder of a thenable's `then` body has
no effect (`runActs_called`).  Concretely: a thenable calling
`res(a); res(b); rej(c)` fulfills promise2 with `a` only; a thenable
calling `res(a)` and then raising still fulfills with `a` (the raise is
ignored because a callback already fired); reading a `then` getter that
raises rejects promise2 with that error, as does a `then` body that raises
before any callback fired. -/
theorem c5_guard :
    (∀ (p2 fid : Nat) (acts : List ThenAction) (st : Machine),
      getFlag st fid = true → runActs p2 fid acts st = st) ∧
    (∀ a b c : Int, stateOf (run 2 (c5b_prog a b c)) 1 = .RESOLVED ∧
      valueOf (run 2 (c5b_prog a b c)) 1 = .num a ∧
      reasonOf (run 2 (c5b_prog a b c)) 1 = .undef) ∧
    (∀ a : Int, stateOf (run 2 (c5c_prog a)) 1 = .RESOLVED ∧
      valueOf (run 2 (c5c_prog a)) 1 = .num a) ∧
    (∀ m : String, stateOf (run 2 (c5d1_prog m)) 1 = .REJECTED ∧
      reasonOf (run 2 (c5d1_prog m)) 1 = .err m) ∧
    (∀ m : String, stateOf (run 2 (c5d2_prog m)) 1 = .REJECTED ∧
      reasonOf (run 2 (c5d2_prog m)) 1 = .err m) := by
  refine ⟨runActs_called, ?_, ?_, ?_, ?_⟩
  · intro a b c
    have key : run 2 (c5b_prog a b c) = c5b_s2 a b c := by
      show step (step (c5b_prog a b c)) = c5b_s2 a b c
      rw [show c5b_prog a b c = c5b_s0 a b c from rfl,
        show step (c5b_s0 a b c) = c5b_s1 a b c from rfl]
      exact rfl
    refine ⟨?_, ?_, ?_⟩ <;> (rw [key]; rfl)
  · intro a
    have key : run 2 (c5c_prog a) = c5c_s2 a := by
      show step (step (c5c_prog a)) = c5c_s2 a
      rw [show c5c_prog a = c5c_s0 a from rfl,
        show step (c5c_s0 a) = c5c_s1 a from rfl]
      exact rfl
    refine ⟨?_, ?_⟩ <;> (rw [key]; rfl)
  · intro m
    have key : run 2 (c5d1_prog m) = c5d1_s2 m := by
      show step (step (c5d1_prog m)) = c5d1_s2 m
      rw [show c5d1_prog m = c5d1_s0 m from rfl,
        show step (c5d1_s0 m) = c5d1_s1 m from rfl]
      exact rfl
    refine ⟨?_, ?_⟩ <;> (rw [key]; rfl)
  · intro m
    have key : run 2 (c5d2_prog m) = c5d2_s2 m := by
      show step (step (c5d2_prog m)) = c5d2_s2 m
      rw [show c5d2_prog m = c5d2_s0 m from rfl,
        show step (c5d2_s0 m) = c5d2_s1 m from rfl]
      exact rfl
    refine ⟨?_, ?_⟩ <;> (rw [key]; rfl)

/-- Witness for C5's general guard statement: on a machine whose flag 0 is
already set, a thenable body that calls the first callback and then raises
has no effect at all. -/
theorem c5_guard_witness :
    getFlag c5w 0 = true ∧
    runActs 1 0 [.callRes (.num 7), .thro (.err "z")] c5w = c5w :=
  ⟨rfl, c5_guard.1 1 0 [.callRes (.num 7), .thro (.err "z")] c5w rfl⟩

set_option maxHeartbeats 1000000 in
/-- Claim C6: a handler that raises `Error(m)` during its scheduled
invocation rejects the `then`-returned promise with exactly that error,
and a subsequent `.then(null, e => e.message)` on it fulfills with the
error's message `m`. -/
theorem c6_handler_error (m : String) :
    stateOf (run 3 (c6_prog m)) 1 = .REJECTED ∧
    reasonOf (run 3 (c6_prog m)) 1 = .err m ∧
    stateOf (run 3 (c6_prog m)) 2 = .RESOLVED ∧
    valueOf (run 3 (c6_prog m)) 2 = .str m := by
  have key : run 3 (c6_prog m) = c6_s3 m := by
    show step (step (step (c6_prog m))) = c6_s3 m
    rw [show c6_prog m = c6_s0 m from rfl,
      show step (c6_s0 m) = c6_s1 m from rfl,
      show step (c6_s1 m) = c6_s2 m from rfl]
    exact rfl
  refine ⟨?_, ?_, ?_, ?_⟩ <;> (rw [key]; rfl)

set_option maxHeartbeats 1000000 in
/-- Claim C7: an executor that raises before calling either capability
leaves the constructed promise rejected with the raised error, and the
construction is literally the same machine as one whose executor called
`reject` with that error. -/
theorem c7_executor_throw (e : Value) :
    stateOf (run 1 (c7_prog e)) 0 = .REJECTED ∧
    reasonOf (run 1 (c7_prog e)) 0 = e ∧
    newPromise initMachine [.thro e] = newPromise initMachine [.callRej e] := by
  have key : run 1 (c7_prog e) = c7_s1 e := by
    show step (c7_prog e) = c7_s1 e
    rw [show c7_prog e = c7_s0 e from rfl]
    exact rfl
  refine ⟨?_, ?_, rfl⟩ <;> (rw [key]; rfl)

set_option maxHeartbeats 2000000 in
/-- Claim C8: missing `then` handlers default to identity pass-through for
fulfillment and re-raise for rejection: `resolve(n).then().then(v => v)`
fulfills the whole chain with `n`, and a rejection propagates unchanged
through a handler-less `then` link. -/
theorem c8_default_handlers :
    (∀ n : Int, stateOf (run 3 (c8A_prog n)) 1 = .RESOLVED ∧
      valueOf (run 3 (c8A_prog n)) 1 = .num n ∧
      stateOf (run 3 (c8A_prog n)) 2 = .RESOLVED ∧
      valueOf (run 3 (c8A_prog n)) 2 = .num n) ∧
    (∀ m : String, stateOf (run 2 (c8B_prog m)) 1 = .REJECTED ∧
      reasonOf (run 2 (c8B_prog m)) 1 = .err m) := by
  constructor
  · intro n
    have key : run 3 (c8A_prog n) = c8A_s3 n := by
      show step (step (step (c8A_prog n))) = c8A_s3 n
      rw [show c8A_prog n = c8A_s0 n from rfl,
        show step (c8A_s0 n) = c8A_s1 n from rfl,
        show step (c8A_s1 n) = c8A_s2 n from rfl]
      exact rfl
    refine ⟨?_, ?_, ?_, ?_⟩ <;> (rw [key]; rfl)
  · intro m
    have key : run 2 (c8B_prog m) = c8B_s2 m := by
      show step (step (c8B_prog m)) = c8B_s2 m
      rw [show c8B_prog m = c8B_s0 m from rfl,
        show step (c8B_s0 m) = c8B_s1 m from rfl]
      exact rfl
    refine ⟨?_, ?_⟩ <;> (rw [key]; rfl)

set_option maxHeartbeats 1000000 in
/-- Claim C9: the deferred handle's capabilities settle the promise from
outside the executor with first-call-wins semantics: `resolve(v)` followed
by `reject(r)` leaves the promise fulfilled with `v` (the reject
settlement finds the promise no longer pending and does nothing), stably
so. -/
theorem c9_deferred_first_wins (v r : Value) :
    stateOf (run 2 (c9_prog v r)) 0 = .RESOLVED ∧
    valueOf (run 2 (c9_prog v r)) 0 = v ∧
    reasonOf (run 2 (c9_prog v r)) 0 = .undef ∧
    ∀ k, valueOf (run k (run 2 (c9_prog v r))) 0 = v := by
  have key : run 2 (c9_prog v r) = c9_s2 v r := by
    show step (step (c9_prog v r)) = c9_s2 v r
    rw [show c9_prog v r = c9_s0 v r from rfl,
      show step (c9_s0 v r) = c9_s1 v r from rfl]
    exact rfl
  refine ⟨?_, ?_, ?_, ?_⟩
  · rw [key]; rfl
  · rw [key]; rfl
  · rw [key]; rfl
  · intro k; rw [key, run_of_empty k _ rfl]; rfl

/-- Claim C10: `then` arguments that are present but not functions are
silently replaced by the default handlers, so such a call builds exactly
the same machine as `then()` with no handlers, and in particular never
raises at the call site. -/
theorem c10_nonfunction_handlers (st : Machine) (pid : Nat) (v w : Value)
    (hv : isFunction v = false) (hw : isFunction w = false) :
    thenOp st pid v w = thenOp st pid .undef .undef := by
  have h1 := asHandler_of_not_function v .ident hv
  have h2 := asHandler_of_not_function w .rethrow hw
  unfold thenOp
  rw [h1, h2]
  rfl

/-- Witness for C10: `then(5, "x")` builds the same machine as `then()`. -/
theorem c10_nonfunction_handlers_witness :
    isFunction (.num 5) = false ∧ isFunction (.str "x") = false ∧
    thenOp initMachine 0 (.num 5) (.str "x") = thenOp initMachine 0 .undef .undef :=
  ⟨rfl, rfl, c10_nonfunction_handlers initMachine 0 (.num 5) (.str "x") rfl rfl⟩


end PromiseSpec
